import Mathlib

/-!
Verification development for the Archtoys screen color-picker engine
(src/main.rs). Each Rust function relevant to the verified properties is
shallowly embedded as an executable Lean definition; external effects
(display server, D-Bus, UI event loop, hotkey manager) appear as explicit
inputs enumerating the outcomes the code distinguishes.
-/

namespace Archtoys

/-- An 8-bit RGB triple as produced by the picker (`u8` channels). -/
structure Rgb where
  r : Nat
  g : Nat
  b : Nat
deriving DecidableEq, Repr

/-- Constant `OVERLAY_WIDTH` (main.rs line 35). -/
def OVERLAY_WIDTH : Int := 140

/-- Constant `OVERLAY_HEIGHT` (main.rs line 36). -/
def OVERLAY_HEIGHT : Int := 44

/-- Constant `OVERLAY_OFFSET_X` (main.rs line 37). -/
def OVERLAY_OFFSET_X : Int := 20

/-- Constant `OVERLAY_OFFSET_Y` (main.rs line 38). -/
def OVERLAY_OFFSET_Y : Int := 20

/-- Embedding of `overlay_position` (main.rs lines 825-842). Rust `i32`
arithmetic is modelled on `Int`; `v.clamp(0, m)` is `min (max v 0) m`,
which agrees with Rust (and cannot hit Rust's `clamp` panic because the
lower bound 0 never exceeds `m = max (dim - overlay) 0`). -/
def overlay_position (x y screen_w screen_h : Int) : Int × Int :=
  let pos_x0 := x + OVERLAY_OFFSET_X
  let pos_y0 := y + OVERLAY_OFFSET_Y
  let pos_x1 :=
    if pos_x0 + OVERLAY_WIDTH > screen_w then x - OVERLAY_WIDTH - OVERLAY_OFFSET_X else pos_x0
  let pos_y1 :=
    if pos_y0 + OVERLAY_HEIGHT > screen_h then y - OVERLAY_HEIGHT - OVERLAY_OFFSET_Y else pos_y0
  let max_x := max (screen_w - OVERLAY_WIDTH) 0
  let max_y := max (screen_h - OVERLAY_HEIGHT) 0
  (min (max pos_x1 0) max_x, min (max pos_y1 0) max_y)

/-- Claim C7 counterexample: the claim asserts cursor (0,0) on a 1920x1080
screen yields position (0,0); the code yields (20,20) (the lower-right
offset placement, which is already in bounds and is not clamped to the
origin). -/
theorem overlay_position_origin_not_zero :
    overlay_position 0 0 1920 1080 ≠ (0, 0) ∧ overlay_position 0 0 1920 1080 = (20, 20) := by
  constructor
  · decide
  · decide

/-- Claim C7 (amended): on a screen at least as large as the 140x44
overlay, the returned position keeps the overlay bounding box inside
[0,screen_w]x[0,screen_h]; cursor (0,0) on 1920x1080 yields (20,20) (the
plain lower-right placement), and cursor (1919,1079) yields the flipped
upper-left placement (1759,1015), in bounds. -/
theorem overlay_position_bounds (x y screen_w screen_h : Int)
    (hw : 140 ≤ screen_w) (hh : 44 ≤ screen_h) :
    0 ≤ (overlay_position x y screen_w screen_h).1 ∧
      (overlay_position x y screen_w screen_h).1 + 140 ≤ screen_w ∧
      0 ≤ (overlay_position x y screen_w screen_h).2 ∧
      (overlay_position x y screen_w screen_h).2 + 44 ≤ screen_h ∧
      overlay_position 0 0 1920 1080 = (20, 20) ∧
      overlay_position 1919 1079 1920 1080 = (1759, 1015) := by
  refine ⟨?_, ?_, ?_, ?_, by decide, by decide⟩ <;>
    simp only [overlay_position, OVERLAY_WIDTH, OVERLAY_HEIGHT, OVERLAY_OFFSET_X,
      OVERLAY_OFFSET_Y] <;>
    split_ifs <;> omega

/-- Witness for `overlay_position_bounds` at cursor (5,7) on 1920x1080. -/
theorem overlay_position_bounds_witness :
    0 ≤ (overlay_position 5 7 1920 1080).1 ∧
      (overlay_position 5 7 1920 1080).1 + 140 ≤ 1920 ∧
      0 ≤ (overlay_position 5 7 1920 1080).2 ∧
      (overlay_position 5 7 1920 1080).2 + 44 ≤ 1080 := by
  obtain ⟨h1, h2, h3, h4, _, _⟩ :=
    overlay_position_bounds 5 7 1920 1080 (by decide) (by decide)
  exact ⟨h1, h2, h3, h4⟩

/-- Claim C9: `overlay_position` is total; both returned coordinates are
always nonnegative; on a screen narrower than the overlay the x
coordinate is forced to 0 and the overlay still overhangs the right edge,
and symmetrically for the height. -/
theorem overlay_position_total_nonneg (x y screen_w screen_h : Int) :
    0 ≤ (overlay_position x y screen_w screen_h).1 ∧
      0 ≤ (overlay_position x y screen_w screen_h).2 ∧
      (screen_w < 140 → (overlay_position x y screen_w screen_h).1 = 0 ∧
        screen_w < (overlay_position x y screen_w screen_h).1 + 140) ∧
      (screen_h < 44 → (overlay_position x y screen_w screen_h).2 = 0 ∧
        screen_h < (overlay_position x y screen_w screen_h).2 + 44) := by
  refine ⟨?_, ?_, fun hw => ⟨?_, ?_⟩, fun hh => ⟨?_, ?_⟩⟩ <;>
    simp only [overlay_position, OVERLAY_WIDTH, OVERLAY_HEIGHT, OVERLAY_OFFSET_X,
      OVERLAY_OFFSET_Y] <;>
    split_ifs <;> omega

/-- Witness for `overlay_position_total_nonneg` on an undersized
100x30 screen: both coordinates come out 0. -/
theorem overlay_position_total_nonneg_witness :
    (overlay_position 5 5 100 30).1 = 0 ∧ (overlay_position 5 5 100 30).2 = 0 := by
  obtain ⟨_, _, hw, hh⟩ := overlay_position_total_nonneg 5 5 100 30
  exact ⟨(hw (by decide)).1, (hh (by decide)).1⟩

/-- Boolean substring test on character lists, mirroring Rust
`str::contains` for ASCII needles. -/
def charsContain (needle : List Char) : List Char → Bool
  | [] => needle.isEmpty
  | c :: rest => needle.isPrefixOf (c :: rest) || charsContain needle rest

/-- Embedding of the cancellation test in `pick_color_via_kwin`
(main.rs line 1131): `message.to_ascii_lowercase().contains("cancel")`.
`Char.toLower` lowercases exactly the ASCII uppercase range, matching
Rust `to_ascii_lowercase`. -/
def message_indicates_cancel (msg : String) : Bool :=
  charsContain "cancel".toList (msg.toList.map Char.toLower)

/-- Possible shapes of the D-Bus reply body of the KWin `pick` call:
deserializable as a bare `u32` (signature `u`), as a one-element tuple
`(u32,)` (signature `(u)`), or neither (main.rs lines 1138-1148). -/
inductive DBusBody where
  | u32val (v : Nat)
  | tuple1 (v : Nat)
  | malformed
deriving DecidableEq, Repr

/-- Outcomes of the environment interactions inside `pick_color_via_kwin`
(main.rs lines 1115-1136): session-bus connection failure, proxy creation
failure, the `pick` method call erroring with a message, or the call
returning a reply body. -/
inductive KwinCall where
  | busFail (msg : String)
  | proxyFail (msg : String)
  | callErr (msg : String)
  | callOk (body : DBusBody)
deriving DecidableEq, Repr

/-- Embedding of the body deserialization chain of `pick_color_via_kwin`
(main.rs lines 1139-1148): try `u32`, fall back to `(u32,)`, else error. -/
def decode_kwin_body : DBusBody → Except String Nat
  | DBusBody.u32val v => Except.ok v
  | DBusBody.tuple1 v => Except.ok v
  | DBusBody.malformed => Except.error "kwin: pick decode failed"

/-- Embedding of `pick_color_via_kwin` (main.rs lines 1115-1159).
`Except.ok none` is the `Ok(None)` cancellation outcome, `Except.ok
(some rgb)` a selected color, `Except.error` the `Err(String)` path. -/
def pick_color_via_kwin (call : KwinCall) : Except String (Option Rgb) :=
  match call with
  | KwinCall.busFail msg => Except.error ("kwin: session bus failed: " ++ msg)
  | KwinCall.proxyFail msg => Except.error ("kwin: color picker proxy failed: " ++ msg)
  | KwinCall.callErr msg =>
      if message_indicates_cancel msg then Except.ok none
      else Except.error ("kwin: pick call failed: " ++ msg)
  | KwinCall.callOk body =>
      match decode_kwin_body body with
      | Except.error e => Except.error e
      | Except.ok argb =>
          let alpha := (argb >>> 24) &&& 0xff
          if alpha == 0 then Except.ok none
          else
            Except.ok (some ⟨(argb >>> 16) &&& 0xff, (argb >>> 8) &&& 0xff, argb &&& 0xff⟩)

/-- Embedding of the fallback chain in `start_wayland_picker`
(main.rs lines 1167-1173): the KWin picker result is matched first; the
portal is consulted only in its `Err` arm. The returned Bool records
whether `pick_color_via_portal` was invoked (it appears exactly once in
the source, so `true` means attempted exactly once). -/
def start_wayland_fallback (call : KwinCall)
    (portalResult : Except String (Option Rgb)) : Except String (Option Rgb) × Bool :=
  match pick_color_via_kwin call with
  | Except.ok picked => (Except.ok picked, false)
  | Except.error _ => (portalResult, true)

/-- Claim C3: the KWin service is consulted first and the portal is
attempted exactly once iff the KWin path fails with a non-cancellation
error; a `pick` call error whose message contains "cancel"
(case-insensitively) resolves to Cancelled and the portal is never
attempted. -/
theorem wayland_fallback_ordering (call : KwinCall)
    (portalResult : Except String (Option Rgb)) :
    ((start_wayland_fallback call portalResult).2 = true ↔
      ∃ e, pick_color_via_kwin call = Except.error e) ∧
    (∀ msg, call = KwinCall.callErr msg →
      (message_indicates_cancel msg = true →
        start_wayland_fallback call portalResult = (Except.ok none, false)) ∧
      (message_indicates_cancel msg = false →
        start_wayland_fallback call portalResult = (portalResult, true))) := by
  constructor
  · unfold start_wayland_fallback
    cases h : pick_color_via_kwin call with
    | ok v => simp [h]
    | error e => simp
  · rintro msg rfl
    constructor
    · intro hc
      simp [start_wayland_fallback, pick_color_via_kwin, hc]
    · intro hc
      simp [start_wayland_fallback, pick_color_via_kwin, hc]

/-- Witness for `wayland_fallback_ordering`: a cancel-flavored KWin error
yields Cancelled without touching the portal, and a plain failure falls
through to the portal exactly once. -/
theorem wayland_fallback_ordering_witness :
    start_wayland_fallback (KwinCall.callErr "Picking color was Cancelled by user")
        (Except.ok (some ⟨1, 2, 3⟩)) = (Except.ok none, false) ∧
    start_wayland_fallback (KwinCall.callErr "service unknown")
        (Except.ok (some ⟨1, 2, 3⟩)) = (Except.ok (some ⟨1, 2, 3⟩), true) := by
  constructor
  · exact ((wayland_fallback_ordering (KwinCall.callErr "Picking color was Cancelled by user")
      (Except.ok (some ⟨1, 2, 3⟩))).2 _ rfl).1 (by decide)
  · exact ((wayland_fallback_ordering (KwinCall.callErr "service unknown")
      (Except.ok (some ⟨1, 2, 3⟩))).2 _ rfl).2 (by decide)

/-- Claim C4: for every 32-bit reply value, delivered bare or wrapped in
a one-element tuple, zero alpha decodes to Cancelled and nonzero alpha to
the byte-sliced color; in particular 0 decodes to Cancelled and
0xFFFF0000 to (255,0,0). -/
theorem kwin_argb_decode (v : Nat) (hv : v < 2 ^ 32) :
    (∀ body, body = DBusBody.u32val v ∨ body = DBusBody.tuple1 v →
      pick_color_via_kwin (KwinCall.callOk body) =
        (if (v >>> 24) &&& 0xff = 0 then Except.ok none
         else Except.ok (some ⟨(v >>> 16) &&& 0xff, (v >>> 8) &&& 0xff, v &&& 0xff⟩))) ∧
    pick_color_via_kwin (KwinCall.callOk (DBusBody.u32val 0)) = Except.ok none ∧
    pick_color_via_kwin (KwinCall.callOk (DBusBody.u32val 0xFFFF0000)) =
      Except.ok (some ⟨255, 0, 0⟩) := by
  refine ⟨?_, by rfl, by rfl⟩
  rintro body (rfl | rfl) <;>
    · simp only [pick_color_via_kwin, decode_kwin_body]
      split <;> rename_i h <;> simp_all

/-- Witness for `kwin_argb_decode` at the value 0xFF00FF00 (opaque pure
green), delivered as a one-element tuple. -/
theorem kwin_argb_decode_witness :
    pick_color_via_kwin (KwinCall.callOk (DBusBody.tuple1 0xFF00FF00)) =
      Except.ok (some ⟨0, 255, 0⟩) := by
  have h := (kwin_argb_decode 0xFF00FF00 (by norm_num)).1
    (DBusBody.tuple1 0xFF00FF00) (Or.inr rfl)
  exact h.trans (by rfl)

/-- A value stored in the portal response `results` map, as the code
distinguishes them: either convertible to an `(f64, f64, f64)` triple
(modelled on ℚ) or of some other type so conversion fails
(main.rs lines 1106-1109). -/
inductive PortalValue where
  | colorF64 (red green blue : ℚ)
  | wrongType
deriving DecidableEq

/-- Embedding of the `to_u8` closure in `pick_color_via_portal`
(main.rs line 1111): `(value.clamp(0.0, 1.0) * 255.0).round() as u8`,
with `f64` modelled on ℚ; Rust rounds half away from zero, which on the
nonnegative clamped range agrees with `round`. -/
def portal_to_u8 (value : ℚ) : Nat :=
  (round (min (max value 0) 1 * 255)).toNat

/-- Embedding of the success-branch color extraction of
`pick_color_via_portal` (main.rs lines 1102-1112): look up the "color"
entry of the results map (modelled as an association list), convert it to
three floats, and byte-convert each channel. -/
def decode_portal_color (results : List (String × PortalValue)) : Except String Rgb :=
  match results.lookup "color" with
  | none => Except.error "portal: response did not include color"
  | some PortalValue.wrongType => Except.error "portal: color type conversion failed"
  | some (PortalValue.colorF64 red green blue) =>
      Except.ok ⟨portal_to_u8 red, portal_to_u8 green, portal_to_u8 blue⟩

/-- Embedding of the response handling of `pick_color_via_portal`
(main.rs lines 1092-1112), starting from the decoded
`(response_code, results)` payload returned by
`wait_for_portal_response`. -/
def portal_handle_response (response_code : Nat)
    (results : List (String × PortalValue)) : Except String (Option Rgb) :=
  if response_code == 1 || response_code == 2 then Except.ok none
  else if response_code != 0 then
    Except.error ("portal: PickColor request rejected with code " ++ toString response_code)
  else
    match decode_portal_color results with
    | Except.error e => Except.error e
    | Except.ok rgb => Except.ok (some rgb)

/-- Claim C5: portal response code 0 proceeds to decoding the color
entry, codes 1 and 2 yield Cancelled without error, and every other code
yields a rejection error. -/
theorem portal_response_code_dispatch (response_code : Nat)
    (results : List (String × PortalValue)) :
    portal_handle_response 1 results = Except.ok none ∧
    portal_handle_response 2 results = Except.ok none ∧
    (response_code ≠ 0 → response_code ≠ 1 → response_code ≠ 2 →
      portal_handle_response response_code results =
        Except.error ("portal: PickColor request rejected with code " ++
          toString response_code)) ∧
    portal_handle_response 0 results = (decode_portal_color results).map some := by
  refine ⟨by rfl, by rfl, ?_, ?_⟩
  · intro h0 h1 h2
    simp [portal_handle_response, h0, h1, h2]
  · simp only [portal_handle_response]
    cases h : decode_portal_color results <;> simp [Except.map]

/-- Witness for `portal_response_code_dispatch`: code 3 is rejected, and
code 0 with a valid color entry decodes it (here pure white). -/
theorem portal_response_code_dispatch_witness :
    portal_handle_response 3 [] =
      Except.error "portal: PickColor request rejected with code 3" ∧
    portal_handle_response 0 [("color", PortalValue.colorF64 1 1 1)] =
      Except.ok (some ⟨255, 255, 255⟩) := by
  constructor
  · have h := (portal_response_code_dispatch 3 []).2.2.1 (by decide) (by decide) (by decide)
    exact h
  · have h := (portal_response_code_dispatch 0
      [("color", PortalValue.colorF64 1 1 1)]).2.2.2
    refine h.trans ?_
    have hv : portal_to_u8 1 = 255 := by
      simp [portal_to_u8]
    simp [decode_portal_color, List.lookup, Except.map, hv]

/-- Embedding of `SessionType` (main.rs lines 62-67). -/
inductive SessionType where
  | x11
  | wayland
  | unknown
deriving DecidableEq, Repr

/-- Embedding of `PickerSource` (main.rs lines 50-54). -/
inductive PickerSource where
  | hotkey
  | button
deriving DecidableEq, Repr

/-- Embedding of `PickerContext` (main.rs lines 56-60). -/
structure PickerContext where
  source : PickerSource
  was_visible_before_trigger : Bool
deriving DecidableEq, Repr

/-- The two process-wide atomic booleans `PICKER_ACTIVE` and
`PICKER_CANCELLED` (main.rs lines 32-33). -/
structure PickerFlags where
  active : Bool
  cancelled : Bool
deriving DecidableEq, Repr

/-- Environment of the UI-thread interactions during session teardown:
whether `invoke_from_event_loop` posts succeed, whether the weak UI
handle still upgrades, and the two settings read at that point. -/
structure UiEnv where
  finish_invoke_ok : Bool
  ui_alive : Bool
  setting_minimize : Bool
  setting_autocopy : Bool
deriving DecidableEq, Repr

/-- Observable effects of `finish_picker`. -/
structure FinishResult where
  flagsAfter : PickerFlags
  window_reshown : Bool
  overlay_released : Bool
deriving DecidableEq, Repr

/-- The stealth condition computed inside `finish_picker`
(main.rs lines 850-853). -/
def stealth_condition (env : UiEnv) (context : PickerContext) (selected : Bool) : Bool :=
  selected && context.source == PickerSource.hotkey &&
    !context.was_visible_before_trigger && env.setting_autocopy

/-- Embedding of `finish_picker` (main.rs lines 844-865). On a successful
event-loop post the closure releases the overlay surfaces, re-shows the
main window iff it still upgrades, the minimize setting is on and the
stealth condition is off, then stores `PICKER_ACTIVE = false`; if the
post fails, the error branch stores `PICKER_ACTIVE = false` directly. -/
def finish_picker (env : UiEnv) (context : PickerContext) (selected : Bool)
    (flags : PickerFlags) : FinishResult :=
  if env.finish_invoke_ok then
    { flagsAfter := { flags with active := false }
      window_reshown :=
        env.ui_alive && (env.setting_minimize && !stealth_condition env context selected)
      overlay_released := true }
  else
    { flagsAfter := { flags with active := false }
      window_reshown := false
      overlay_released := false }

/-- What `start_picker` dispatches after winning the active-flag
compare-and-swap (main.rs lines 1219-1224). -/
inductive StartAction where
  | noop
  | spawnWayland
  | spawnX11
deriving DecidableEq, Repr

/-- Embedding of `start_picker` (main.rs lines 1205-1225): the
compare-and-swap on `PICKER_ACTIVE` rejects a second session; on success
`PICKER_CANCELLED` is cleared and the strategy is chosen by session type
(X11 and Unknown both take the X11 path). -/
def start_picker (flags : PickerFlags) (session : SessionType) : PickerFlags × StartAction :=
  if flags.active then (flags, StartAction.noop)
  else
    let flags2 : PickerFlags := { active := true, cancelled := false }
    match session with
    | SessionType.wayland => (flags2, StartAction.spawnWayland)
    | SessionType.x11 => (flags2, StartAction.spawnX11)
    | SessionType.unknown => (flags2, StartAction.spawnX11)

/-- The exit paths of a picker session worker, one constructor per
`return`/`break` site in `start_x11_picker` (main.rs lines 867-1031) and
`start_wayland_picker` (main.rs lines 1161-1203). -/
inductive ExitPath where
  | x11OverlayFail
  | x11DisplayFail
  | x11CapturerFail
  | x11FatalCapture
  | x11EscapeCancel
  | x11ExternalCancel
  | x11Selected
  | waylandSelected
  | waylandApplyInvokeFail
  | waylandCancelled
  | waylandIpcError
deriving DecidableEq, Repr

/-- The final flag state reached from each worker exit path. Overlay
creation failure stores `PICKER_ACTIVE = false` directly and returns
(main.rs line 876); every other path reaches `finish_picker`, with
`selected = true` exactly on the selection paths, and with
`PICKER_CANCELLED` set first on the escape and wayland-cancel paths
(main.rs lines 1022, 1194). -/
def worker_exit_flags (exit : ExitPath) (env : UiEnv) (context : PickerContext)
    (flags : PickerFlags) : PickerFlags :=
  match exit with
  | ExitPath.x11OverlayFail => { flags with active := false }
  | ExitPath.x11DisplayFail => (finish_picker env context false flags).flagsAfter
  | ExitPath.x11CapturerFail => (finish_picker env context false flags).flagsAfter
  | ExitPath.x11FatalCapture => (finish_picker env context false flags).flagsAfter
  | ExitPath.x11EscapeCancel =>
      (finish_picker env context false { flags with cancelled := true }).flagsAfter
  | ExitPath.x11ExternalCancel => (finish_picker env context false flags).flagsAfter
  | ExitPath.x11Selected => (finish_picker env context true flags).flagsAfter
  | ExitPath.waylandSelected => (finish_picker env context true flags).flagsAfter
  | ExitPath.waylandApplyInvokeFail => (finish_picker env context false flags).flagsAfter
  | ExitPath.waylandCancelled =>
      (finish_picker env context false { flags with cancelled := true }).flagsAfter
  | ExitPath.waylandIpcError => (finish_picker env context false flags).flagsAfter

/-- Flags after a whole session: `start_picker` followed, when a worker
was actually spawned, by that worker running to its exit path. -/
def session_final_flags (flags0 : PickerFlags) (session : SessionType) (exit : ExitPath)
    (env : UiEnv) (context : PickerContext) : PickerFlags :=
  match start_picker flags0 session with
  | (f, StartAction.noop) => f
  | (f, _) => worker_exit_flags exit env context f

/-- Claim C1: for every trigger, session type, exit path (including a
failed finish post) and UI environment, a session that starts with the
active flag false ends with it false again. -/
theorem picker_active_cleared (flags0 : PickerFlags) (session : SessionType)
    (exit : ExitPath) (env : UiEnv) (context : PickerContext)
    (h0 : flags0.active = false) :
    (session_final_flags flags0 session exit env context).active = false := by
  cases exit <;> cases session <;>
    simp [session_final_flags, start_picker, worker_exit_flags, finish_picker, h0] <;>
    split <;> simp

/-- Witness for `picker_active_cleared`: the hardest path of the claim, a
fatal capture error whose finish post also fails. -/
theorem picker_active_cleared_witness :
    (session_final_flags ⟨false, false⟩ SessionType.x11 ExitPath.x11FatalCapture
      ⟨false, false, false, false⟩ ⟨PickerSource.hotkey, false⟩).active = false :=
  picker_active_cleared ⟨false, false⟩ SessionType.x11 ExitPath.x11FatalCapture
    ⟨false, false, false, false⟩ ⟨PickerSource.hotkey, false⟩ rfl

/-- Claim C2: when the active flag is already set, `start_picker` returns
with no action: the flags (including the cancellation flag) are unchanged
and no worker is spawned, whatever the session type. -/
theorem start_picker_noop_when_active (flags : PickerFlags) (session : SessionType)
    (h : flags.active = true) :
    start_picker flags session = (flags, StartAction.noop) := by
  simp [start_picker, h]

/-- Witness for `start_picker_noop_when_active`: a second start during an
active, not-cancelled Wayland session changes nothing. -/
theorem start_picker_noop_when_active_witness :
    start_picker ⟨true, false⟩ SessionType.wayland = (⟨true, false⟩, StartAction.noop) :=
  start_picker_noop_when_active ⟨true, false⟩ SessionType.wayland rfl

/-- Whether the session-end sequence for outcome `selected` shows the
main window: `apply_selected_color` (main.rs lines 805-823, invoked on
selection via the event loop) calls `ui.window().show()` whenever the
auto-copy setting is off, and `finish_picker` then applies the
minimize/stealth rule. -/
def session_end_shows_window (env : UiEnv) (apply_invoke_ok : Bool)
    (context : PickerContext) (selected : Bool) : Bool :=
  (selected && apply_invoke_ok && env.ui_alive && !env.setting_autocopy) ||
    (finish_picker env context selected ⟨true, false⟩).window_reshown

/-- Claim C6 counterexample: with the minimize setting off and auto-copy
off, a selected outcome still shows the main window (from
`apply_selected_color`), although the claim predicts no re-show whenever
the minimize setting is disabled. -/
theorem session_end_reshow_counterexample :
    session_end_shows_window ⟨true, true, false, false⟩ true
      ⟨PickerSource.button, true⟩ true = true ∧
    (⟨true, true, false, false⟩ : UiEnv).setting_minimize = false := by
  constructor
  · rfl
  · rfl

/-- Claim C6 (amended): the session-end sequence shows the main window
iff the UI handle is alive and either (the outcome is a selected color,
the selection post succeeded and auto-copy is disabled — the
`apply_selected_color` show) or (the finish post succeeded, the minimize
setting is enabled and the stealth condition does not hold). -/
theorem session_end_reshow_rule (env : UiEnv) (apply_invoke_ok : Bool)
    (context : PickerContext) (selected : Bool) :
    session_end_shows_window env apply_invoke_ok context selected = true ↔
      env.ui_alive = true ∧
        ((selected = true ∧ apply_invoke_ok = true ∧ env.setting_autocopy = false) ∨
          (env.finish_invoke_ok = true ∧ env.setting_minimize = true ∧
            stealth_condition env context selected = false)) := by
  obtain ⟨fi, ua, sm, sa⟩ := env
  obtain ⟨src, wv⟩ := context
  cases src <;> revert fi ua sm sa wv apply_invoke_ok selected <;> decide

/-- Embedding of the pixel-sampling block of the X11 capture loop
(main.rs lines 942-954): with positive capture dimensions, clamp the
cursor into the frame, compute the row-major BGRx byte offset, and read
(R,G,B) only when `idx + 2` is still inside the buffer. -/
def sample_pixel (width height mouse_x mouse_y : Int) (frame : List Nat) : Option Rgb :=
  if width > 0 && height > 0 then
    let safe_x := min (max mouse_x 0) (width - 1)
    let safe_y := min (max mouse_y 0) (height - 1)
    let stride := width.toNat * 4
    let idx := safe_y.toNat * stride + safe_x.toNat * 4
    if idx + 2 < frame.length then
      some ⟨frame.getD (idx + 2) 0, frame.getD (idx + 1) 0, frame.getD idx 0⟩
    else none
  else none

/-- Outcome of one `capturer.frame()` call as the code distinguishes them
(main.rs lines 940-963): a frame buffer, `WouldBlock` (keep the previous
sample), or any other error (fatal). -/
inductive FrameFetch where
  | ok (bytes : List Nat)
  | wouldBlock
  | fatal
deriving DecidableEq, Repr

/-- Inputs read by one iteration of the X11 capture loop: the
cancellation flag at the loop head, the polled cursor position, the
capturer dimensions, the frame fetch outcome, and the polled primary
button and Escape states. -/
structure IterInput where
  cancelled_flag : Bool
  mouse_x : Int
  mouse_y : Int
  width : Int
  height : Int
  frame : FrameFetch
  left_pressed : Bool
  escape_pressed : Bool
deriving DecidableEq, Repr

/-- Mutable state carried across iterations of the X11 capture loop:
`prev_left_pressed` and `last_color` (main.rs lines 922-923). -/
structure LoopState where
  prev_left_pressed : Bool
  last_color : Rgb
deriving DecidableEq, Repr

/-- Result of one loop iteration: continue with updated state, exit
without a selection (head cancellation, fatal capture error, or Escape),
or exit committing a color on a primary-button rising edge. -/
inductive StepResult where
  | next (st : LoopState)
  | exitCancelled
  | exitSelected (committed : Rgb)
deriving DecidableEq, Repr

/-- Tail of one loop iteration after the frame block (main.rs lines
1005-1026): a rising edge of the primary button commits `color` and
breaks with `selected = true`; otherwise `prev_left_pressed` is updated
and a pressed Escape sets the cancellation flag and breaks. -/
def picker_step_tail (prev_left : Bool) (color : Rgb) (inp : IterInput) : StepResult :=
  if inp.left_pressed && !prev_left then StepResult.exitSelected color
  else if inp.escape_pressed then StepResult.exitCancelled
  else StepResult.next ⟨inp.left_pressed, color⟩

/-- One iteration of the X11 capture loop (main.rs lines 927-1026): check
the cancellation flag, then the frame fetch (a fatal error breaks;
`WouldBlock` keeps the previous sample; a frame updates `last_color` only
when `sample_pixel` succeeds), then the click and Escape checks. -/
def picker_step (st : LoopState) (inp : IterInput) : StepResult :=
  if inp.cancelled_flag then StepResult.exitCancelled
  else
    match inp.frame with
    | FrameFetch.fatal => StepResult.exitCancelled
    | FrameFetch.wouldBlock => picker_step_tail st.prev_left_pressed st.last_color inp
    | FrameFetch.ok bytes =>
        picker_step_tail st.prev_left_pressed
          ((sample_pixel inp.width inp.height inp.mouse_x inp.mouse_y bytes).getD
            st.last_color) inp

/-- Result of running the loop over a finite trace of iteration inputs:
still running (trace exhausted), cancelled, or a committed selection; the
terminal outcomes carry the consumed prefix of the trace. -/
inductive LoopOutcome where
  | running (st : LoopState)
  | cancelledOutcome (consumed : List IterInput)
  | selectedOutcome (committed : Rgb) (consumed : List IterInput)
deriving DecidableEq, Repr

/-- The X11 capture loop over a finite input trace, from state `st`. -/
def picker_loop (st : LoopState) : List IterInput → LoopOutcome
  | [] => LoopOutcome.running st
  | inp :: rest =>
      match picker_step st inp with
      | StepResult.next st2 =>
          match picker_loop st2 rest with
          | LoopOutcome.running s => LoopOutcome.running s
          | LoopOutcome.cancelledOutcome c => LoopOutcome.cancelledOutcome (inp :: c)
          | LoopOutcome.selectedOutcome col c => LoopOutcome.selectedOutcome col (inp :: c)
      | StepResult.exitCancelled => LoopOutcome.cancelledOutcome [inp]
      | StepResult.exitSelected col => LoopOutcome.selectedOutcome col [inp]

/-- Modelled from the claim's words: the pixel an iteration successfully
samples, if any (an iteration that exits at the head cancellation check
or on a fatal error never reaches the sampling block). -/
def sampled_color (inp : IterInput) : Option Rgb :=
  if inp.cancelled_flag then none
  else
    match inp.frame with
    | FrameFetch.ok bytes => sample_pixel inp.width inp.height inp.mouse_x inp.mouse_y bytes
    | FrameFetch.wouldBlock => none
    | FrameFetch.fatal => none

/-- Modelled from the claim's words: the most recently successfully
sampled pixel along a trace, starting from `init`. -/
def most_recent_sample (init : Rgb) : List IterInput → Rgb
  | [] => init
  | inp :: rest => most_recent_sample ((sampled_color inp).getD init) rest

/-- When the iteration tail continues the loop, the carried color is the
one it was handed. -/
theorem picker_step_tail_next (prev : Bool) (color : Rgb) (inp : IterInput)
    (st2 : LoopState) (h : picker_step_tail prev color inp = StepResult.next st2) :
    st2.last_color = color := by
  simp only [picker_step_tail] at h
  split_ifs at h
  cases h; rfl

/-- When the iteration tail commits a color, it commits the one it was
handed. -/
theorem picker_step_tail_selected (prev : Bool) (color : Rgb) (inp : IterInput)
    (col : Rgb) (h : picker_step_tail prev color inp = StepResult.exitSelected col) :
    col = color := by
  simp only [picker_step_tail] at h
  split_ifs at h
  cases h; rfl

/-- The color `picker_step` carries forward or commits is the current
iteration's sample when one succeeded, else the previous `last_color`. -/
theorem picker_step_color (st : LoopState) (inp : IterInput) :
    (∀ st2, picker_step st inp = StepResult.next st2 →
      st2.last_color = (sampled_color inp).getD st.last_color) ∧
    (∀ col, picker_step st inp = StepResult.exitSelected col →
      col = (sampled_color inp).getD st.last_color) := by
  by_cases hc : inp.cancelled_flag = true
  · constructor <;> intro x hx <;> simp [picker_step, hc] at hx
  · simp only [Bool.not_eq_true] at hc
    cases hf : inp.frame with
    | ok bytes =>
        constructor <;> intro x hx <;>
          simp only [picker_step, hc, Bool.false_eq_true, if_false, hf] at hx <;>
          simp only [sampled_color, hc, Bool.false_eq_true, if_false, hf]
        · exact picker_step_tail_next _ _ _ _ hx
        · exact picker_step_tail_selected _ _ _ _ hx
    | wouldBlock =>
        constructor <;> intro x hx <;>
          simp only [picker_step, hc, Bool.false_eq_true, if_false, hf] at hx <;>
          simp only [sampled_color, hc, Bool.false_eq_true, if_false, hf, Option.getD_none]
        · exact picker_step_tail_next _ _ _ _ hx
        · exact picker_step_tail_selected _ _ _ _ hx
    | fatal =>
        constructor <;> intro x hx <;>
          simp [picker_step, hc, hf] at hx

/-- If the loop run from state `st` ends in a committed selection, the
committed color is the most recent successful sample over the consumed
prefix, seeded with `st.last_color`. -/
theorem picker_loop_commit (trace : List IterInput) :
    ∀ st committed consumed,
      picker_loop st trace = LoopOutcome.selectedOutcome committed consumed →
      committed = most_recent_sample st.last_color consumed := by
  induction trace with
  | nil => intro st committed consumed h; simp [picker_loop] at h
  | cons inp rest ih =>
      intro st committed consumed h
      simp only [picker_loop] at h
      split at h
      · rename_i st2 hstep
        split at h
        · simp at h
        · simp at h
        · rename_i col c hrec
          simp only [LoopOutcome.selectedOutcome.injEq] at h
          obtain ⟨rfl, rfl⟩ := h
          have hcolor := (picker_step_color st inp).1 st2 hstep
          have hrest := ih st2 col c hrec
          simp only [most_recent_sample, ← hcolor]
          exact hrest
      · simp at h
      · rename_i col hstep
        simp only [LoopOutcome.selectedOutcome.injEq] at h
        obtain ⟨rfl, rfl⟩ := h
        have hcolor := (picker_step_color st inp).2 col hstep
        simpa [most_recent_sample] using hcolor

/-- When no iteration of a trace samples successfully, the most recent
sample stays the seed. -/
theorem most_recent_sample_of_none (consumed : List IterInput) :
    ∀ init : Rgb, (∀ inp ∈ consumed, sampled_color inp = none) →
      most_recent_sample init consumed = init := by
  induction consumed with
  | nil => intro init _; rfl
  | cons inp rest ih =>
      intro init hall
      have h1 := hall inp (List.mem_cons_self inp rest)
      simp only [most_recent_sample, h1, Option.getD_none]
      exact ih init fun i hi => hall i (List.mem_cons_of_mem inp hi)

/-- Claim C10: a capture-loop run from the initial state that ends in a
primary-button commit commits the most recently successfully sampled
pixel, and when every consumed iteration failed to sample (not-ready
frames, zero dimensions, or out-of-bounds index) it commits (0,0,0) while
still ending as a selection. -/
theorem x11_commit_is_last_sample (trace consumed : List IterInput) (committed : Rgb)
    (h : picker_loop ⟨false, ⟨0, 0, 0⟩⟩ trace = LoopOutcome.selectedOutcome committed consumed) :
    committed = most_recent_sample ⟨0, 0, 0⟩ consumed ∧
      ((∀ inp ∈ consumed, sampled_color inp = none) → committed = ⟨0, 0, 0⟩) := by
  have h1 := picker_loop_commit trace ⟨false, ⟨0, 0, 0⟩⟩ committed consumed h
  refine ⟨h1, fun hall => ?_⟩
  rw [h1, most_recent_sample_of_none consumed ⟨0, 0, 0⟩ hall]

/-- Witness for `x11_commit_is_last_sample`: a two-iteration trace whose
frames are both not-ready and whose second iteration clicks commits
(0,0,0) as a selection. -/
theorem x11_commit_is_last_sample_witness :
    (⟨0, 0, 0⟩ : Rgb) =
      most_recent_sample ⟨0, 0, 0⟩
        [⟨false, 3, 4, 1920, 1080, FrameFetch.wouldBlock, false, false⟩,
         ⟨false, 3, 4, 1920, 1080, FrameFetch.wouldBlock, true, false⟩] :=
  (x11_commit_is_last_sample
    [⟨false, 3, 4, 1920, 1080, FrameFetch.wouldBlock, false, false⟩,
     ⟨false, 3, 4, 1920, 1080, FrameFetch.wouldBlock, true, false⟩]
    [⟨false, 3, 4, 1920, 1080, FrameFetch.wouldBlock, false, false⟩,
     ⟨false, 3, 4, 1920, 1080, FrameFetch.wouldBlock, true, false⟩]
    ⟨0, 0, 0⟩ rfl).1

/-- Calls made against the global hotkey manager, with the outcome of
each registration attempt recorded. -/
inductive RegOp where
  | unregisterOp (id : Nat)
  | registerOkOp (id : Nat)
  | registerFailOp (id : Nat)
deriving DecidableEq, Repr

/-- State owned by the hotkey handling: the active combination's
underlying id and normalized text (the `active_hotkey` /
`active_hotkey_id` / `active_hotkey_text` mutexes, main.rs lines
1296-1298), the set of ids currently registered with the OS-level
manager, and the text displayed in the UI (`setting_hotkey`). -/
structure HotkeyState where
  active_id : Nat
  active_text : String
  os_registered : List Nat
  displayed_text : String
deriving DecidableEq, Repr

/-- Outcome of `build_hotkey_from_capture` followed by
`parse_hotkey_text` (main.rs lines 1355-1374): either a failure (no
modifier, no non-modifier key, or unparsable text) or a parsed
combination with its underlying id and normalized display text. -/
inductive CaptureOutcome where
  | invalid
  | parsed (id : Nat) (text : String)
deriving DecidableEq, Repr

/-- Embedding of the `on_hotkey_captured` closure (main.rs lines
1350-1402). `canRegister id` gives the outcome the manager returns for a
`register` call on `id`; the returned list records the manager calls in
order. On capture failure the old text is re-displayed; on an id match
only the texts are updated; otherwise the old id is unregistered and the
new one registered, and if that registration fails the old id is
re-registered (result ignored by the code) with the old text kept. -/
def on_hotkey_captured (canRegister : Nat → Bool) (manager_present : Bool)
    (st : HotkeyState) (cap : CaptureOutcome) : HotkeyState × List RegOp :=
  match cap with
  | CaptureOutcome.invalid => ({ st with displayed_text := st.active_text }, [])
  | CaptureOutcome.parsed new_id new_text =>
      if new_id == st.active_id then
        ({ st with active_text := new_text, displayed_text := new_text }, [])
      else if manager_present then
        let afterUnreg := st.os_registered.erase st.active_id
        if canRegister new_id then
          ({ active_id := new_id, active_text := new_text,
             os_registered := new_id :: afterUnreg, displayed_text := new_text },
           [RegOp.unregisterOp st.active_id, RegOp.registerOkOp new_id])
        else if canRegister st.active_id then
          ({ st with
              os_registered := st.active_id :: afterUnreg,
              displayed_text := st.active_text },
           [RegOp.unregisterOp st.active_id, RegOp.registerFailOp new_id,
            RegOp.registerOkOp st.active_id])
        else
          ({ st with os_registered := afterUnreg, displayed_text := st.active_text },
           [RegOp.unregisterOp st.active_id, RegOp.registerFailOp new_id,
            RegOp.registerFailOp st.active_id])
      else
        ({ active_id := new_id, active_text := new_text,
           os_registered := st.os_registered, displayed_text := new_text }, [])

/-- Claim C8 counterexample: when registering the new combination fails
and the rollback `register` of the old one also fails (its result is
discarded by `let _ = manager.register(old_hotkey)`), the manager is left
with zero registered hotkeys, refuting the claim's "the registry never
ends up with zero active hotkeys". -/
theorem hotkey_rollback_counterexample :
    ((on_hotkey_captured (fun _ => false) true
        ⟨1, "Ctrl+Super+C", [1], "Ctrl+Super+C"⟩
        (CaptureOutcome.parsed 2 "Ctrl+Alt+P")).1).os_registered = [] := by
  rfl

/-- Claim C8 (amended): capturing a combination with the same underlying
id only updates the stored and displayed text with no manager calls;
capturing a different id unregisters the old and registers the new; if
registering the new fails, the old combination is re-registered (the code
ignores that attempt's result) and stays the active combination with the
old text displayed, so provided the rollback registration succeeds the
manager keeps a registered hotkey. -/
theorem hotkey_two_phase (canRegister : Nat → Bool) (st : HotkeyState)
    (new_id : Nat) (new_text : String) :
    (new_id = st.active_id →
      on_hotkey_captured canRegister true st (CaptureOutcome.parsed new_id new_text) =
        ({ st with active_text := new_text, displayed_text := new_text }, [])) ∧
    (new_id ≠ st.active_id → canRegister new_id = true →
      on_hotkey_captured canRegister true st (CaptureOutcome.parsed new_id new_text) =
        ({ active_id := new_id, active_text := new_text,
           os_registered := new_id :: st.os_registered.erase st.active_id,
           displayed_text := new_text },
         [RegOp.unregisterOp st.active_id, RegOp.registerOkOp new_id])) ∧
    (new_id ≠ st.active_id → canRegister new_id = false →
      canRegister st.active_id = true →
      on_hotkey_captured canRegister true st (CaptureOutcome.parsed new_id new_text) =
        ({ st with
            os_registered := st.active_id :: st.os_registered.erase st.active_id,
            displayed_text := st.active_text },
         [RegOp.unregisterOp st.active_id, RegOp.registerFailOp new_id,
          RegOp.registerOkOp st.active_id]) ∧
      st.active_id ∈
        ((on_hotkey_captured canRegister true st
          (CaptureOutcome.parsed new_id new_text)).1).os_registered) := by
  refine ⟨?_, ?_, ?_⟩
  · intro heq
    simp [on_hotkey_captured, heq]
  · intro hne hok
    simp [on_hotkey_captured, hne, hok]
  · intro hne hfail hold
    constructor
    · simp [on_hotkey_captured, hne, hfail, hold]
    · simp [on_hotkey_captured, hne, hfail, hold]

/-- Witness for `hotkey_two_phase`: with only id 1 registrable, replacing
active id 1 by id 2 fails, rolls back to id 1, and keeps the old text
displayed with id 1 still registered. -/
theorem hotkey_two_phase_witness :
    on_hotkey_captured (fun n => n == 1) true ⟨1, "Ctrl+Super+C", [1], "Ctrl+Super+C"⟩
        (CaptureOutcome.parsed 2 "Ctrl+Alt+P") =
      (⟨1, "Ctrl+Super+C", [1], "Ctrl+Super+C"⟩,
       [RegOp.unregisterOp 1, RegOp.registerFailOp 2, RegOp.registerOkOp 1]) ∧
    (1 : Nat) ∈
      ((on_hotkey_captured (fun n => n == 1) true ⟨1, "Ctrl+Super+C", [1], "Ctrl+Super+C"⟩
        (CaptureOutcome.parsed 2 "Ctrl+Alt+P")).1).os_registered := by
  have h := ((hotkey_two_phase (fun n => n == 1)
    ⟨1, "Ctrl+Super+C", [1], "Ctrl+Super+C"⟩ 2 "Ctrl+Alt+P").2.2
    (by decide) (by rfl) (by rfl))
  exact ⟨h.1, h.2⟩

end Archtoys
